import Mathlib

/-!
Shallow embedding of the Flappy Jungle Shooter game logic (src/game.py).

Modelling conventions:
* Python floats are modelled as exact rationals; every numeric literal in the
  source is decimal and carries over exactly.
* Values of time.time() are passed in as an explicit `now : ℚ` argument.
* Calls to random.* and to math.sin / math.cos / math.pi are modelled by an
  explicit oracle record `Env`, so every definition stays executable and no
  theorem depends on the value any oracle returns.
* Python object identity (what list.remove compares by default for these
  objects) is modelled by a `sid` field on sprites; fresh identities are drawn
  from the `nextId` counter of the state.
* Rendering-only state (colours, bitmaps, animation timers and frames, the
  decorative cloud layers, the cached sky bitmap) and all drawing code are
  omitted: the spec declares rendering out of scope and no claim concerns it.
* Event-loop plumbing (Refresh, SetFocus) and the play_sound stub are no-ops
  in the source and are omitted.
-/

namespace FJS

/-- WINDOW_W constant of game.py. -/
def WINDOW_W : ℚ := 480

/-- WINDOW_H constant of game.py. -/
def WINDOW_H : ℚ := 640

/-- MAX_BULLETS constant of game.py. -/
def MAX_BULLETS : ℕ := 4

/-- SHOOT_COOLDOWN constant of game.py (0.28 seconds). -/
def SHOOT_COOLDOWN : ℚ := 28/100

/-- self.gravity, set in GamePanel.__init__ and never reassigned. -/
def gravityConst : ℚ := 900

/-- self.flap_strength, set in GamePanel.__init__ and never reassigned. -/
def flap_strength : ℚ := -320

/-- The two selectable player characters (self.current_character). -/
inductive Character
  | bird
  | snake
deriving DecidableEq

/-- The bullet_type tag attached to projectile sprites; `untagged` is the
getattr default None for sprites that never received the attribute. -/
inductive BulletType
  | untagged
  | normal
  | venom
  | special
  | specialVenom
deriving DecidableEq

/-- The enemy_type tag attached to enemy sprites. -/
inductive EnemyType
  | untagged
  | snakeE
  | eagle
  | crocodile
  | owl
deriving DecidableEq

/-- Theme names used by the theme sequence. -/
inductive Theme
  | sunny
  | rainy
deriving DecidableEq

/-- Keys the game reacts to in on_key_down; `other` covers the rest. -/
inductive Key
  | space
  | keyP
  | keyR
  | ctrl
  | keyZ
  | keyC
  | keyX
  | keyD
  | escape
  | other (code : ℕ)
deriving DecidableEq

/-- A game sprite (class Sprite): position, size, velocity, the bobbing state
set up in Sprite.__init__, and the dynamic attributes the source attaches to
bullet and enemy instances, with their getattr defaults (bullet_type None,
age 0, lifetime 3.0).  The `sid` field models Python object identity, used by
list.remove.  Colour and bitmap fields are rendering-only and omitted. -/
structure Sprite where
  sid : ℕ
  x : ℚ
  y : ℚ
  w : ℤ
  h : ℤ
  vx : ℚ := 0
  vy : ℚ := 0
  baseY : ℚ
  bobPhase : ℚ := 0
  bobAmp : ℚ := 0
  bobSpeed : ℚ := 1
  bulletType : BulletType := BulletType.untagged
  age : ℚ := 0
  lifetime : ℚ := 3
  enemyType : EnemyType := EnemyType.untagged
deriving DecidableEq

/-- A particle (class Particle); colour and size are rendering-only. -/
structure Particle where
  x : ℚ
  y : ℚ
  vx : ℚ
  vy : ℚ
  lifetime : ℚ
  age : ℚ := 0
deriving DecidableEq

/-- A raindrop dict of the rainy theme: keys x, y, v. -/
structure Raindrop where
  x : ℚ
  y : ℚ
  v : ℚ
deriving DecidableEq

/-- One difficulty preset (dict entries of self.difficulty_presets); the name
string is HUD-only and omitted. -/
structure Preset where
  mult : ℚ
  spawn_rate : ℚ
  enemy_speed : ℚ
  gravity : ℚ
deriving DecidableEq

/-- Oracle record standing for the impure inputs of one call: math.sin,
math.cos, math.pi, and the outcomes of the random.* draws.  No theorem below
depends on the values these oracles return. -/
structure Env where
  sin : ℚ → ℚ
  cos : ℚ → ℚ
  pi : ℚ
  tDraw : ℚ
  hDraw : ℤ
  yDraw : ℤ
  vDraw : ℚ
  bobAmpDraw : ℚ
  bobSpeedDraw : ℚ
  raindropAt : ℕ → Raindrop
  pvx : ℕ → ℚ
  pvy : ℕ → ℚ
  recycleX : ℚ
  recycleY : ℚ

/-- The mutable state of GamePanel that participates in game logic.
Rendering-only fields (animation timers/frames, clouds, sky bitmap, colours)
and the unused health/shield fields are omitted. -/
structure GamePanel where
  currentCharacter : Character
  bird : Sprite
  snake : Sprite
  bullets : List Sprite
  enemies : List Sprite
  particles : List Particle
  raindrops : List Raindrop
  spawnTimer : ℚ
  score : ℤ
  combo : ℤ
  comboTimer : ℚ
  running : Bool
  paused : Bool
  lastShot : ℚ
  lastSpecial : ℚ
  specialCooldown : ℚ
  difficultyIndex : Fin 4
  difficulty : ℚ
  highScore : ℤ
  cameraShake : ℚ
  theme : Theme
  themeStage : ℕ
  themeSpawnBoost : ℚ
  themeEnemySpeedBoost : ℚ
  lastTime : ℚ
  dt : ℚ
  keys : List Key
  nextId : ℕ
deriving DecidableEq

/-- Sprite.update: integrate position by velocity. -/
def Sprite.update (dt : ℚ) (s : Sprite) : Sprite :=
  { s with x := s.x + s.vx * dt, y := s.y + s.vy * dt }

/-- Sprite.intersects: axis-aligned bounding-box test with the strict
comparisons of the source (not (A or B or C or D)). -/
def Sprite.intersects (s o : Sprite) : Bool :=
  if s.x + (s.w : ℚ) < o.x ∨ s.x > o.x + (o.w : ℚ) ∨
     s.y + (s.h : ℚ) < o.y ∨ s.y > o.y + (o.h : ℚ) then
    false
  else
    true

/-- Python int() applied to a float: truncation toward zero. -/
def pyTrunc (q : ℚ) : ℤ :=
  if 0 ≤ q then ⌊q⌋ else -⌊-q⌋

/-- list.remove by object identity: drop the first sprite with the given sid;
if none is present the list is unchanged (the source wraps the call in
try/except ValueError: pass). -/
def removeFirst : List Sprite → ℕ → List Sprite
  | [], _ => []
  | s :: rest, i => if s.sid = i then rest else s :: removeFirst rest i

/-- self.difficulty_presets: Easy, Normal, Hard, Insane. -/
def difficulty_presets : Fin 4 → Preset :=
  ![⟨8/10, 8/10, 85/100, 9/10⟩,
    ⟨1, 1, 1, 1⟩,
    ⟨12/10, 12/10, 115/100, 105/100⟩,
    ⟨3/2, 3/2, 14/10, 11/10⟩]

/-- self.player: the active character's sprite. -/
def playerSprite (g : GamePanel) : Sprite :=
  match g.currentCharacter with
  | Character.bird => g.bird
  | Character.snake => g.snake

/-- Write back a mutation of self.player to the active character's sprite. -/
def setPlayerSprite (g : GamePanel) (p : Sprite) : GamePanel :=
  match g.currentCharacter with
  | Character.bird => { g with bird := p }
  | Character.snake => { g with snake := p }

/-- GamePanel.shoot_bird: one straight red 8x8 projectile at 420 px/s.
The integer divisions mirror the // operator of the source. -/
def shoot_bird (g : GamePanel) : GamePanel :=
  let bx := g.bird.x + (g.bird.w : ℚ)
  let sy := g.bird.y + ((g.bird.h / 2 : ℤ) : ℚ) - 4
  { g with
    bullets := g.bullets ++
      [{ sid := g.nextId, x := bx, y := sy, w := 8, h := 8, vx := 420, vy := 0,
         baseY := sy, bulletType := BulletType.normal }],
    nextId := g.nextId + 1 }

/-- GamePanel.shoot_snake: cone of 3 venom pellets at angles 0, -0.3, 0.3
radians, speed 380, lifetime 3.0, age 0. -/
def shoot_snake (env : Env) (g : GamePanel) : GamePanel :=
  let bx := g.snake.x + (g.snake.w : ℚ)
  let sy := g.snake.y + ((g.snake.h / 2 : ℤ) : ℚ)
  let mk := fun (i : ℕ) (angle : ℚ) =>
    ({ sid := g.nextId + i, x := bx, y := sy, w := 6, h := 6,
       vx := 380 * env.cos angle, vy := 380 * env.sin angle,
       baseY := sy, bulletType := BulletType.venom, lifetime := 3, age := 0 } : Sprite)
  { g with
    bullets := g.bullets ++ [mk 0 0, mk 1 (-(3/10)), mk 2 (3/10)],
    nextId := g.nextId + 3 }

/-- GamePanel.shoot: dispatch on the current character (play_sound is a
no-op stub in the source). -/
def shoot (env : Env) (g : GamePanel) : GamePanel :=
  match g.currentCharacter with
  | Character.bird => shoot_bird g
  | Character.snake => shoot_snake env g

/-- GamePanel.try_shoot: cooldown gate, then the bullet-count gate
len(self.bullets) >= MAX_BULLETS, then fire and stamp last_shot. -/
def try_shoot (env : Env) (now : ℚ) (g : GamePanel) : GamePanel :=
  if now - g.lastShot < SHOOT_COOLDOWN then g
  else if MAX_BULLETS ≤ g.bullets.length then g
  else { shoot env g with lastShot := now }

/-- GamePanel.special_bird_attack: fan of 5 bullets, angles
-0.4, -0.2, 0, 0.2, 0.4 radians, speed 450. -/
def special_bird_attack (env : Env) (g : GamePanel) : GamePanel :=
  let bx := g.bird.x + (g.bird.w : ℚ)
  let sy := g.bird.y + ((g.bird.h / 2 : ℤ) : ℚ)
  let mk := fun (i : ℕ) (angle : ℚ) =>
    ({ sid := g.nextId + i, x := bx, y := sy, w := 8, h := 8,
       vx := 450 * env.cos angle, vy := 450 * env.sin angle,
       baseY := sy, bulletType := BulletType.special } : Sprite)
  { g with
    bullets := g.bullets ++
      [mk 0 (-(4/10)), mk 1 (-(2/10)), mk 2 0, mk 3 (2/10), mk 4 (4/10)],
    nextId := g.nextId + 5 }

/-- GamePanel.special_snake_attack: ring of 8 venom pellets, angles
2*pi*i/8, speed 250, lifetime 2.0, age 0. -/
def special_snake_attack (env : Env) (g : GamePanel) : GamePanel :=
  let cx := g.snake.x + ((g.snake.w / 2 : ℤ) : ℚ)
  let cy := g.snake.y + ((g.snake.h / 2 : ℤ) : ℚ)
  { g with
    bullets := g.bullets ++ (List.range 8).map (fun (i : ℕ) =>
      let angle := 2 * env.pi * (i : ℚ) / 8
      ({ sid := g.nextId + i, x := cx, y := cy, w := 7, h := 7,
         vx := 250 * env.cos angle, vy := 250 * env.sin angle,
         baseY := cy, bulletType := BulletType.specialVenom,
         lifetime := 2, age := 0 } : Sprite)),
    nextId := g.nextId + 8 }

/-- GamePanel.special_attack: dispatch on character, then trigger_shake(6.0)
(play_sound is a no-op). -/
def special_attack (env : Env) (g : GamePanel) : GamePanel :=
  let g :=
    match g.currentCharacter with
    | Character.bird => special_bird_attack env g
    | Character.snake => special_snake_attack env g
  { g with cameraShake := 6 }

/-- GamePanel.try_special_attack: only the special cooldown gates it. -/
def try_special_attack (env : Env) (now : ℚ) (g : GamePanel) : GamePanel :=
  if now - g.lastSpecial < g.specialCooldown then g
  else { special_attack env g with lastSpecial := now }

/-- GamePanel.spawn_enemy: one uniform draw partitioned into four species
ranges; sizes, placement and bobbing parameters come from the random oracle,
the speed factor from difficulty and theme state as in the source. -/
def spawn_enemy (env : Env) (g : GamePanel) : GamePanel :=
  let preset_speed := (difficulty_presets g.difficultyIndex).enemy_speed
  let speed_factor := (1 + (g.difficulty - 1) * (3/10)) * preset_speed * g.themeEnemySpeedBoost
  let e : Sprite :=
    if env.tDraw < 1/4 then
      { sid := g.nextId, x := WINDOW_W, y := WINDOW_H - 60 - (env.hDraw : ℚ),
        w := 48, h := env.hDraw,
        vx := -(150 + env.vDraw * 40) * speed_factor, vy := 0,
        baseY := WINDOW_H - 60 - (env.hDraw : ℚ),
        bobAmp := env.bobAmpDraw, bobSpeed := env.bobSpeedDraw,
        enemyType := EnemyType.snakeE }
    else if env.tDraw < 1/2 then
      { sid := g.nextId, x := WINDOW_W, y := (env.yDraw : ℚ),
        w := 52, h := env.hDraw,
        vx := -(200 + env.vDraw * 80) * speed_factor, vy := 0,
        baseY := (env.yDraw : ℚ),
        bobAmp := env.bobAmpDraw, bobSpeed := env.bobSpeedDraw,
        enemyType := EnemyType.eagle }
    else if env.tDraw < 3/4 then
      { sid := g.nextId, x := WINDOW_W, y := WINDOW_H - 60 - (env.hDraw : ℚ),
        w := 56, h := env.hDraw,
        vx := -(100 + env.vDraw * 30) * speed_factor, vy := 0,
        baseY := WINDOW_H - 60 - (env.hDraw : ℚ),
        bobAmp := env.bobAmpDraw, bobSpeed := env.bobSpeedDraw,
        enemyType := EnemyType.crocodile }
    else
      { sid := g.nextId, x := WINDOW_W, y := (env.yDraw : ℚ),
        w := 44, h := env.hDraw,
        vx := -(120 + env.vDraw * 50) * speed_factor, vy := 0,
        baseY := (env.yDraw : ℚ),
        bobAmp := env.bobAmpDraw, bobSpeed := env.bobSpeedDraw,
        enemyType := EnemyType.owl }
  { g with enemies := g.enemies ++ [e], nextId := g.nextId + 1 }

/-- GamePanel.spawn_particles: burst of `count` particles at exactly (x, y),
velocities from the random oracle, lifetime 0.5 as passed at the call site.
Colour choice is rendering-only and omitted. -/
def spawn_particles (env : Env) (x y : ℚ) (count : ℕ) (ps : List Particle) : List Particle :=
  ps ++ (List.range count).map (fun i =>
    { x := x, y := y, vx := env.pvx i, vy := env.pvy i, lifetime := 1/2 })

/-- GamePanel.reset: clear the three transient collections, possibly promote
the high score (the file write of save_high_score is external I/O, outside
the model), zero score/combo/timers, re-seat both characters at the spawn
point (60, WINDOW_H // 2 = 320) with zero velocity, resume running, clear
shake, and reset the continuous difficulty multiplier. -/
def reset (g : GamePanel) : GamePanel :=
  let g := { g with bullets := [], enemies := [], particles := [] }
  let g := if g.score > g.highScore then { g with highScore := g.score } else g
  { g with
    score := 0, combo := 0, comboTimer := 0,
    bird := { g.bird with x := 60, y := 320, vx := 0, vy := 0 },
    snake := { g.snake with x := 60, y := 320, vx := 0, vy := 0 },
    running := true, paused := false, cameraShake := 0, difficulty := 1 }

/-- GamePanel.toggle_character: swap the active character, then put the new
active player at the spawn point with zero vertical velocity (vx is not
touched by the source here). -/
def toggle_character (g : GamePanel) : GamePanel :=
  let g :=
    match g.currentCharacter with
    | Character.bird => { g with currentCharacter := Character.snake }
    | Character.snake => { g with currentCharacter := Character.bird }
  setPlayerSprite g { playerSprite g with x := 60, y := 320, vy := 0 }

/-- Python str.strip on the four common ASCII whitespace characters. -/
def pyStrip (s : String) : String :=
  let ws := fun (c : Char) => c = ' ' || c = '\t' || c = '\n' || c = '\r'
  String.mk (((s.toList.dropWhile ws).reverse.dropWhile ws).reverse)

/-- Digit run to a natural number. -/
def digitsToNat : List Char → ℕ → ℕ
  | [], acc => acc
  | c :: cs, acc => digitsToNat cs (acc * 10 + (c.toNat - 48))

/-- Parse a non-empty run of decimal digits. -/
def parseDigits (cs : List Char) : Option ℕ :=
  if cs.isEmpty then Option.none
  else if cs.all (fun c => c.isDigit) then Option.some (digitsToNat cs 0)
  else Option.none

/-- Python int(str) on an already-stripped string: optional sign followed by
a non-empty digit run; anything else raises ValueError (modelled as none).
Digit-group underscores accepted by Python 3 are not modelled; no claim
depends on them. -/
def pyIntParse (s : String) : Option ℤ :=
  match s.toList with
  | [] => Option.none
  | c :: rest =>
    if c = '-' then (parseDigits rest).map (fun n => -(n : ℤ))
    else if c = '+' then (parseDigits rest).map (fun n => (n : ℤ))
    else (parseDigits (c :: rest)).map (fun n => (n : ℤ))

/-- GamePanel.load_high_score.  The file system is modelled by the optional
file content: none stands for an absent file (FileNotFoundError, caught) and
an unparseable content raises ValueError (caught); both fall back to 0. -/
def load_high_score (content : Option String) : ℤ :=
  match content with
  | Option.none => 0
  | Option.some s =>
    match pyIntParse (pyStrip s) with
    | Option.none => 0
    | Option.some n => n

/-- GamePanel.on_key_down: record the key in the pressed set, then run the
one-shot action.  Escape exits the process, which is outside the model. -/
def on_key_down (env : Env) (now : ℚ) (key : Key) (g : GamePanel) : GamePanel :=
  let g := { g with keys := if key ∈ g.keys then g.keys else key :: g.keys }
  match key with
  | Key.space => setPlayerSprite g { playerSprite g with vy := flap_strength }
  | Key.keyP => { g with paused := !g.paused }
  | Key.keyR => reset g
  | Key.ctrl => try_shoot env now g
  | Key.keyZ => try_shoot env now g
  | Key.keyC => toggle_character g
  | Key.keyX => try_special_attack env now g
  | Key.keyD =>
    let i := g.difficultyIndex + 1
    { g with difficultyIndex := i, difficulty := (difficulty_presets i).mult }
  | Key.escape => g
  | Key.other _ => g

/-- GamePanel.on_key_up: drop the key from the pressed set. -/
def on_key_up (key : Key) (g : GamePanel) : GamePanel :=
  { g with keys := g.keys.erase key }

/-- The dt clamp at the top of on_timer: if dt > 0.05 then dt = 0.05. -/
def clampDt (d : ℚ) : ℚ :=
  if d > 5/100 then 5/100 else d

/-- Physics block of on_timer: gravity on the active player, integration,
and the two vertical clamps (ceiling and ground at WINDOW_H - 60). -/
def physicsPhase (g : GamePanel) : GamePanel :=
  let gravity_scale := (difficulty_presets g.difficultyIndex).gravity
  let p := playerSprite g
  let p := { p with vy := p.vy + gravityConst * gravity_scale * g.dt }
  let p := { p with y := p.y + p.vy * g.dt }
  let p := if p.y < 0 then { p with y := 0, vy := 0 } else p
  let p :=
    if p.y + (p.h : ℚ) > WINDOW_H - 60 then
      { p with y := WINDOW_H - 60 - (p.h : ℚ), vy := 0 }
    else p
  setPlayerSprite g p

/-- One bullet of the bullet-update loop: move, age out venom kinds, drop
past the right edge; none means the bullet was removed. -/
def updateBullet (dt : ℚ) (b : Sprite) : Option Sprite :=
  let b := Sprite.update dt b
  if b.bulletType = BulletType.venom ∨ b.bulletType = BulletType.specialVenom then
    let b := { b with age := b.age + dt }
    if b.age ≥ b.lifetime then Option.none
    else if b.x > WINDOW_W then Option.none
    else Option.some b
  else if b.x > WINDOW_W then Option.none
  else Option.some b

/-- Bullet-update block of on_timer.  The source iterates a snapshot and
removes by identity; since each object is visited once and removed at most
once, this is the same as filtering with updateBullet. -/
def bulletPhase (g : GamePanel) : GamePanel :=
  { g with bullets := g.bullets.filterMap (updateBullet g.dt) }

/-- Spawn block of on_timer: accumulate the timer, compute the interval from
score, preset and theme boost, spawn one enemy when over the interval. -/
def spawnPhase (env : Env) (g : GamePanel) : GamePanel :=
  let g := { g with spawnTimer := g.spawnTimer + g.dt }
  let base_spawn := max (6/10) (12/10 - (g.score : ℚ) / 1000)
  let spawn_rate_mul := (difficulty_presets g.difficultyIndex).spawn_rate * g.themeSpawnBoost
  let spawn_interval := max (18/100) (base_spawn / spawn_rate_mul)
  if g.spawnTimer > spawn_interval then
    spawn_enemy env { g with spawnTimer := 0 }
  else g

/-- Continuous difficulty update of on_timer: 1 + score/5000, each frame. -/
def difficultyPhase (g : GamePanel) : GamePanel :=
  { g with difficulty := 1 + (g.score : ℚ) / 5000 }

/-- self.theme_sequence as set in __init__. -/
def theme_sequence : List (Theme × ℤ) :=
  [(Theme.rainy, 500), (Theme.sunny, 1500)]

/-- Theme-transition block of on_timer: while stages remain, compare the
score against the next threshold; on reaching it install the theme, apply its
boosts (rainy additionally appends 120 fresh raindrops, sunny clears them),
and advance the stage counter. -/
def themePhase (env : Env) (g : GamePanel) : GamePanel :=
  match theme_sequence.get? g.themeStage with
  | Option.none => g
  | Option.some (next_theme, threshold) =>
    if threshold ≤ g.score then
      let g := { g with theme := next_theme }
      let g :=
        match next_theme with
        | Theme.rainy =>
          { g with themeSpawnBoost := 5/4, themeEnemySpeedBoost := 115/100,
                   raindrops := g.raindrops ++ (List.range 120).map env.raindropAt }
        | Theme.sunny =>
          { g with themeSpawnBoost := 1, themeEnemySpeedBoost := 1, raindrops := [] }
      { g with themeStage := g.themeStage + 1 }
    else g

/-- Per-enemy motion at the head of the collision loop: the bobbing update is
guarded by the Python truthiness of bob_amp and bob_speed, then
Sprite.update integrates velocity. -/
def enemyAdvance (env : Env) (dt : ℚ) (e : Sprite) : Sprite :=
  let e :=
    if e.bobAmp ≠ 0 ∧ e.bobSpeed ≠ 0 then
      let ph := e.bobPhase + e.bobSpeed * dt
      { e with bobPhase := ph, y := e.baseY + env.sin ph * e.bobAmp }
    else e
  Sprite.update dt e

/-- Body of the inner bullet loop for a fixed enemy object e: on overlap,
remove both by identity (idempotent), bump combo, reset the combo timer,
award int(100 * (1 + (combo - 1) * 0.2)) with the already-bumped combo, spawn
6 particles at the enemy centre and shake the camera. -/
def bulletHit (env : Env) (e : Sprite) (g : GamePanel) (b : Sprite) : GamePanel :=
  if Sprite.intersects e b then
    let g := { g with enemies := removeFirst g.enemies e.sid,
                      bullets := removeFirst g.bullets b.sid }
    let g := { g with combo := g.combo + 1, comboTimer := 3 }
    let g := { g with score := g.score + pyTrunc (100 * (1 + ((g.combo : ℚ) - 1) * (2/10))) }
    let g := { g with particles := spawn_particles env
                        (e.x + ((e.w / 2 : ℤ) : ℚ)) (e.y + ((e.h / 2 : ℤ) : ℚ)) 6 g.particles }
    { g with cameraShake := 3 }
  else g

/-- One iteration of the outer enemy loop: advance the enemy object in place,
drop it past the left edge, end the run on player contact (the loop body then
still scans the bullets, as in the source), and fold the inner bullet loop
over a snapshot of the current bullet list.  `pl` is self.player, which no
step of the loop mutates, so it is read once at loop entry. -/
def processEnemy (env : Env) (pl : Sprite) (g : GamePanel) (e0 : Sprite) : GamePanel :=
  let e := enemyAdvance env g.dt e0
  let g := { g with enemies := g.enemies.map (fun (s : Sprite) => if s.sid = e.sid then e else s) }
  if e.x + (e.w : ℚ) < 0 then
    { g with enemies := removeFirst g.enemies e.sid }
  else
    let g :=
      if Sprite.intersects e pl then
        { g with running := false, combo := 0, cameraShake := 8 }
      else g
    g.bullets.foldl (bulletHit env e) g

/-- Enemy/collision block of on_timer: iterate a snapshot of the enemy list
taken at loop entry (no iteration removes an enemy other than the one it is
visiting, so each snapshot element still carries its loop-entry state). -/
def collisionPhase (env : Env) (g : GamePanel) : GamePanel :=
  g.enemies.foldl (processEnemy env (playerSprite g)) g

/-- Combo-decay block of on_timer: tick the timer down and zero the combo
when it runs out. -/
def comboDecayPhase (g : GamePanel) : GamePanel :=
  let g := { g with comboTimer := g.comboTimer - g.dt }
  if g.comboTimer ≤ 0 then { g with combo := 0 } else g

/-- One particle of the particle-update loop; none means it aged out. -/
def particleStep (dt : ℚ) (p : Particle) : Option Particle :=
  let p := { p with x := p.x + p.vx * dt, y := p.y + p.vy * dt, age := p.age + dt }
  if p.age < p.lifetime then Option.some p else Option.none

/-- Particle-update block of on_timer. -/
def particlePhase (g : GamePanel) : GamePanel :=
  { g with particles := g.particles.filterMap (particleStep g.dt) }

/-- Camera-shake decay of on_timer. -/
def shakePhase (g : GamePanel) : GamePanel :=
  { g with cameraShake := max 0 (g.cameraShake - g.dt * 15) }

/-- Raindrop block of on_timer: only in the rainy theme, fall and recycle
past the bottom edge (keeping the drop's speed, as the source does). -/
def rainPhase (env : Env) (g : GamePanel) : GamePanel :=
  if g.theme = Theme.rainy then
    { g with raindrops := g.raindrops.map (fun rd =>
        let y2 := rd.y + rd.v * g.dt
        if y2 > WINDOW_H then { rd with x := env.recycleX, y := env.recycleY }
        else { rd with y := y2 }) }
  else g

/-- The running-state body of on_timer, in source order (the bird/snake
animation block and the cloud updates between collisions and combo decay are
rendering-only and omitted). -/
def runFrame (env : Env) (g : GamePanel) : GamePanel :=
  rainPhase env (shakePhase (particlePhase (comboDecayPhase (collisionPhase env
    (themePhase env (difficultyPhase (spawnPhase env (bulletPhase (physicsPhase g)))))))))

/-- GamePanel.on_timer: measure and clamp dt, early-return (render only) when
not running or paused, otherwise run the frame body. -/
def on_timer (env : Env) (now : ℚ) (g : GamePanel) : GamePanel :=
  let g := { g with lastTime := now, dt := clampDt (now - g.lastTime) }
  if g.running = false ∨ g.paused = true then g
  else runFrame env g

/-- Scenario harness for combo scoring: a frame in which exactly one enemy
and one bullet are present and which runs the collision block and the combo
decay of the embedded frame unchanged. -/
def killFrame (env : Env) (e b : Sprite) (g : GamePanel) : GamePanel :=
  comboDecayPhase (collisionPhase env { g with enemies := [e], bullets := [b] })

/-- Iterated kill frames: frame n uses the n-th enemy and bullet of the
supplied streams (a fresh enemy spawns and a fresh bullet is fired between
kills). -/
def killSeq (env : Env) (es bs : ℕ → Sprite) (g0 : GamePanel) : ℕ → GamePanel
  | 0 => g0
  | n + 1 => killFrame env (es n) (bs n) (killSeq env es bs g0 n)

/-- Deterministic oracle for concrete runs: fixed values for every draw. -/
def env0 : Env :=
  { sin := fun _ => 0, cos := fun _ => 1, pi := 314159/100000,
    tDraw := 0, hDraw := 24, yDraw := 100, vDraw := 0,
    bobAmpDraw := 3, bobSpeedDraw := 1,
    raindropAt := fun _ => { x := 0, y := -10, v := 300 },
    pvx := fun _ => 0, pvy := fun _ => 0,
    recycleX := 0, recycleY := -10 }

/-- The state GamePanel.__init__ builds (game-logic fields only; the high
score is taken as 0, the startup wall clock as time origin 0). -/
def initState : GamePanel :=
  { currentCharacter := Character.bird,
    bird := { sid := 0, x := 60, y := 320, w := 34, h := 24, baseY := 320 },
    snake := { sid := 1, x := 60, y := 320, w := 40, h := 20, baseY := 320 },
    bullets := [], enemies := [], particles := [], raindrops := [],
    spawnTimer := 0, score := 0, combo := 0, comboTimer := 0,
    running := true, paused := false,
    lastShot := -10, lastSpecial := -10, specialCooldown := 3,
    difficultyIndex := 1, difficulty := 1, highScore := 0, cameraShake := 0,
    theme := Theme.sunny, themeStage := 0,
    themeSpawnBoost := 1, themeEnemySpeedBoost := 1,
    lastTime := 0, dt := 0, keys := [], nextId := 2 }

/-- A concrete on-screen enemy with bobbing disabled (bob_amp = 0 is falsy). -/
def enemyA : Sprite :=
  { sid := 100, x := 300, y := 300, w := 48, h := 30, vx := 0, vy := 0,
    baseY := 300, bobAmp := 0, bobSpeed := 0, enemyType := EnemyType.snakeE }

/-- A concrete live primary bullet inside enemyA's box. -/
def bulletA : Sprite :=
  { sid := 101, x := 310, y := 310, w := 8, h := 8, vx := 420,
    baseY := 310, bulletType := BulletType.normal }

/-- A second concrete live primary bullet inside enemyA's box. -/
def bulletB : Sprite :=
  { sid := 102, x := 320, y := 305, w := 8, h := 8, vx := 420,
    baseY := 305, bulletType := BulletType.normal }

/-- A third concrete live primary bullet (off the enemy, on screen). -/
def bulletC : Sprite :=
  { sid := 103, x := 100, y := 100, w := 8, h := 8, vx := 420,
    baseY := 100, bulletType := BulletType.normal }

/-- Running state whose single enemy overlaps two live bullets. -/
def stateC1 : GamePanel :=
  { initState with enemies := [enemyA], bullets := [bulletA, bulletB], nextId := 200 }

/-- Snake-character state with three bullets in flight. -/
def stateC2 : GamePanel :=
  { initState with
    currentCharacter := Character.snake,
    bullets := [bulletA, bulletB, bulletC], nextId := 200 }

/-- Paused state with a nonzero score and live entities. -/
def statePaused : GamePanel :=
  { initState with
    paused := true, score := 7,
    enemies := [enemyA], bullets := [bulletC], spawnTimer := 2 }

/-- Running state at the rainy threshold. -/
def stateC6 : GamePanel :=
  { initState with score := 600 }

/-- State with a displaced bird, pending weather and a nonzero spawn timer. -/
def stateC10 : GamePanel :=
  { initState with
    bird := { initState.bird with x := 200, y := 100, vy := 50 },
    score := 5, theme := Theme.rainy, themeStage := 1,
    themeSpawnBoost := 5/4, themeEnemySpeedBoost := 115/100,
    raindrops := [{ x := 1, y := 2, v := 3 }], spawnTimer := 1/2 }

/-- Sprites whose boxes touch edge-to-edge with zero gap. -/
def touchA : Sprite :=
  { sid := 310, x := 0, y := 0, w := 10, h := 10, baseY := 0 }

/-- Right-hand touching partner of touchA. -/
def touchB : Sprite :=
  { sid := 311, x := 10, y := 0, w := 10, h := 10, baseY := 0 }

/-- A fourth concrete live primary bullet (for a full magazine). -/
def bulletD : Sprite :=
  { sid := 104, x := 120, y := 120, w := 8, h := 8, vx := 420,
    baseY := 120, bulletType := BulletType.normal }

/-- State with the primary cap reached: four bullets in flight. -/
def stateCap : GamePanel :=
  { initState with bullets := [bulletA, bulletB, bulletC, bulletD], nextId := 200 }

/-- Projection onto the fields that no step of the collision loop mutates;
used to carry invariants through the enemy/bullet folds. -/
def collInv (g : GamePanel) :
    Theme × ℕ × ℚ × ℚ × List Raindrop × Sprite × Sprite × Character × ℚ :=
  (g.theme, g.themeStage, g.themeSpawnBoost, g.themeEnemySpeedBoost,
   g.raindrops, g.bird, g.snake, g.currentCharacter, g.dt)

/-! Theorems.  First a group of helper lemmas about the embedded operations,
then one theorem (with witness or counterexample where applicable) per
specification claim. -/

/-- Folding a step that fixes a projection fixes it over any list. -/
theorem foldl_fix {α β γ : Type} (f : β → α → β) (proj : β → γ)
    (hf : ∀ b a, proj (f b a) = proj b) :
    ∀ (l : List α) (b : β), proj (List.foldl f b l) = proj b := by
  intro l
  induction l with
  | nil => intro b; rfl
  | cons a t ih =>
    intro b
    rw [List.foldl_cons, ih, hf]

/-- Reading the player back after writing it yields the written sprite. -/
theorem playerSprite_set (g : GamePanel) (p : Sprite) :
    playerSprite (setPlayerSprite g p) = p := by
  unfold playerSprite setPlayerSprite
  cases g.currentCharacter <;> rfl

/-- Writing the player sprite leaves the non-player fields alone. -/
theorem setPlayerSprite_frame (g : GamePanel) (p : Sprite) :
    (setPlayerSprite g p).theme = g.theme
  ∧ (setPlayerSprite g p).themeStage = g.themeStage
  ∧ (setPlayerSprite g p).themeSpawnBoost = g.themeSpawnBoost
  ∧ (setPlayerSprite g p).themeEnemySpeedBoost = g.themeEnemySpeedBoost
  ∧ (setPlayerSprite g p).raindrops = g.raindrops
  ∧ (setPlayerSprite g p).score = g.score := by
  unfold setPlayerSprite
  cases g.currentCharacter <;> exact ⟨rfl, rfl, rfl, rfl, rfl, rfl⟩

/-- The physics block leaves theme state, raindrops and score alone. -/
theorem physicsPhase_frame (g : GamePanel) :
    (physicsPhase g).theme = g.theme
  ∧ (physicsPhase g).themeStage = g.themeStage
  ∧ (physicsPhase g).themeSpawnBoost = g.themeSpawnBoost
  ∧ (physicsPhase g).themeEnemySpeedBoost = g.themeEnemySpeedBoost
  ∧ (physicsPhase g).raindrops = g.raindrops
  ∧ (physicsPhase g).score = g.score := by
  unfold physicsPhase
  exact setPlayerSprite_frame g _

/-- The bullet block leaves theme state, raindrops and score alone. -/
theorem bulletPhase_frame (g : GamePanel) :
    (bulletPhase g).theme = g.theme
  ∧ (bulletPhase g).themeStage = g.themeStage
  ∧ (bulletPhase g).themeSpawnBoost = g.themeSpawnBoost
  ∧ (bulletPhase g).themeEnemySpeedBoost = g.themeEnemySpeedBoost
  ∧ (bulletPhase g).raindrops = g.raindrops
  ∧ (bulletPhase g).score = g.score :=
  ⟨rfl, rfl, rfl, rfl, rfl, rfl⟩

/-- The spawn block leaves theme state, raindrops and score alone. -/
theorem spawnPhase_frame (env : Env) (g : GamePanel) :
    (spawnPhase env g).theme = g.theme
  ∧ (spawnPhase env g).themeStage = g.themeStage
  ∧ (spawnPhase env g).themeSpawnBoost = g.themeSpawnBoost
  ∧ (spawnPhase env g).themeEnemySpeedBoost = g.themeEnemySpeedBoost
  ∧ (spawnPhase env g).raindrops = g.raindrops
  ∧ (spawnPhase env g).score = g.score := by
  simp only [spawnPhase]
  split <;> exact ⟨rfl, rfl, rfl, rfl, rfl, rfl⟩

/-- The difficulty update leaves theme state, raindrops and score alone. -/
theorem difficultyPhase_frame (g : GamePanel) :
    (difficultyPhase g).theme = g.theme
  ∧ (difficultyPhase g).themeStage = g.themeStage
  ∧ (difficultyPhase g).themeSpawnBoost = g.themeSpawnBoost
  ∧ (difficultyPhase g).themeEnemySpeedBoost = g.themeEnemySpeedBoost
  ∧ (difficultyPhase g).raindrops = g.raindrops
  ∧ (difficultyPhase g).score = g.score :=
  ⟨rfl, rfl, rfl, rfl, rfl, rfl⟩

/-- The combo-decay block leaves theme state, raindrops and score alone. -/
theorem comboDecayPhase_frame (g : GamePanel) :
    (comboDecayPhase g).theme = g.theme
  ∧ (comboDecayPhase g).themeStage = g.themeStage
  ∧ (comboDecayPhase g).themeSpawnBoost = g.themeSpawnBoost
  ∧ (comboDecayPhase g).themeEnemySpeedBoost = g.themeEnemySpeedBoost
  ∧ (comboDecayPhase g).raindrops = g.raindrops
  ∧ (comboDecayPhase g).score = g.score := by
  simp only [comboDecayPhase]
  split <;> exact ⟨rfl, rfl, rfl, rfl, rfl, rfl⟩

/-- The particle block leaves theme state, raindrops and score alone. -/
theorem particlePhase_frame (g : GamePanel) :
    (particlePhase g).theme = g.theme
  ∧ (particlePhase g).themeStage = g.themeStage
  ∧ (particlePhase g).themeSpawnBoost = g.themeSpawnBoost
  ∧ (particlePhase g).themeEnemySpeedBoost = g.themeEnemySpeedBoost
  ∧ (particlePhase g).raindrops = g.raindrops
  ∧ (particlePhase g).score = g.score :=
  ⟨rfl, rfl, rfl, rfl, rfl, rfl⟩

/-- The shake decay leaves theme state, raindrops and score alone. -/
theorem shakePhase_frame (g : GamePanel) :
    (shakePhase g).theme = g.theme
  ∧ (shakePhase g).themeStage = g.themeStage
  ∧ (shakePhase g).themeSpawnBoost = g.themeSpawnBoost
  ∧ (shakePhase g).themeEnemySpeedBoost = g.themeEnemySpeedBoost
  ∧ (shakePhase g).raindrops = g.raindrops
  ∧ (shakePhase g).score = g.score :=
  ⟨rfl, rfl, rfl, rfl, rfl, rfl⟩

/-- The raindrop block recycles in place: theme state, the raindrop count and
the score are untouched. -/
theorem rainPhase_frame (env : Env) (g : GamePanel) :
    (rainPhase env g).theme = g.theme
  ∧ (rainPhase env g).themeStage = g.themeStage
  ∧ (rainPhase env g).themeSpawnBoost = g.themeSpawnBoost
  ∧ (rainPhase env g).themeEnemySpeedBoost = g.themeEnemySpeedBoost
  ∧ (rainPhase env g).raindrops.length = g.raindrops.length
  ∧ (rainPhase env g).score = g.score := by
  simp only [rainPhase]
  split
  · exact ⟨rfl, rfl, rfl, rfl, by simp, rfl⟩
  · exact ⟨rfl, rfl, rfl, rfl, rfl, rfl⟩

/-- One inner bullet-loop step fixes the collInv fields. -/
theorem bulletHit_collInv (env : Env) (e : Sprite) (g : GamePanel) (b : Sprite) :
    collInv (bulletHit env e g b) = collInv g := by
  simp only [bulletHit]
  split <;> rfl

/-- One outer enemy-loop step fixes the collInv fields. -/
theorem processEnemy_collInv (env : Env) (pl : Sprite) (g : GamePanel) (e0 : Sprite) :
    collInv (processEnemy env pl g e0) = collInv g := by
  simp only [processEnemy]
  split
  · rfl
  · refine Eq.trans (foldl_fix _ collInv (fun b a => bulletHit_collInv env _ b a) _ _) ?_
    split <;> rfl

/-- The whole collision block fixes the collInv fields. -/
theorem collisionPhase_collInv (env : Env) (g : GamePanel) :
    collInv (collisionPhase env g) = collInv g := by
  unfold collisionPhase
  exact foldl_fix _ collInv (fun b a => processEnemy_collInv env _ b a) _ _


/-- Reaching the first threshold with the stage counter at 0 installs the
rainy theme, its boosts, 120 fresh raindrops, and advances the stage. -/
theorem themePhase_trigger (env : Env) (g : GamePanel)
    (h0 : g.themeStage = 0) (hs : 500 ≤ g.score) :
    (themePhase env g).theme = Theme.rainy
  ∧ (themePhase env g).themeSpawnBoost = 5/4
  ∧ (themePhase env g).themeEnemySpeedBoost = 115/100
  ∧ (themePhase env g).raindrops = g.raindrops ++ (List.range 120).map env.raindropAt
  ∧ (themePhase env g).themeStage = 1
  ∧ (themePhase env g).score = g.score := by
  unfold themePhase
  rw [h0]
  simp only [theme_sequence, List.get?]
  rw [if_pos hs]
  exact ⟨rfl, rfl, rfl, rfl, rfl, rfl⟩

/-- Past stage 0 the rainy transition can never fire again: the raindrop pool
is either untouched or cleared (by the later sunny transition), and the theme
either stays what it was or becomes sunny. -/
theorem themePhase_late (env : Env) (g : GamePanel) (h1 : 1 ≤ g.themeStage) :
    ((themePhase env g).raindrops = g.raindrops ∨ (themePhase env g).raindrops = [])
  ∧ ((themePhase env g).theme = g.theme ∨ (themePhase env g).theme = Theme.sunny) := by
  unfold themePhase
  rcases hst : g.themeStage with _ | n
  · omega
  · rcases n with _ | m
    · simp only [theme_sequence, List.get?]
      split
      · exact ⟨Or.inr rfl, Or.inr rfl⟩
      · exact ⟨Or.inl rfl, Or.inl rfl⟩
    · have hnone : theme_sequence.get? (m + 1 + 1) = Option.none := by
        apply List.get?_eq_none.mpr
        simp [theme_sequence]
      rw [hnone]
      exact ⟨Or.inl rfl, Or.inl rfl⟩

/-- The stage counter never decreases across the theme block. -/
theorem themePhase_stage_mono (env : Env) (g : GamePanel) :
    g.themeStage ≤ (themePhase env g).themeStage := by
  unfold themePhase
  rcases theme_sequence.get? g.themeStage with _ | ⟨t, th⟩
  · exact Nat.le_refl _
  · dsimp only
    split
    · cases t
      · exact Nat.le_succ _
      · exact Nat.le_succ _
    · exact Nat.le_refl _

/-- Blocked-by-cap primary fire is the identity on the whole state. -/
theorem try_shoot_noop (env : Env) (now : ℚ) (g : GamePanel)
    (hcap : MAX_BULLETS ≤ g.bullets.length) :
    try_shoot env now g = g := by
  unfold try_shoot
  rcases lt_or_le (now - g.lastShot) SHOOT_COOLDOWN with h | h
  · rw [if_pos h]
  · rw [if_neg (not_lt.mpr h), if_pos hcap]

/-- A ready primary-fire attempt below the cap appends 1 bullet for the bird
and 3 for the snake. -/
theorem try_shoot_fires (env : Env) (now : ℚ) (g : GamePanel)
    (hcd : SHOOT_COOLDOWN ≤ now - g.lastShot) (hcap : g.bullets.length < MAX_BULLETS) :
    (try_shoot env now g).bullets.length
      = g.bullets.length +
        (match g.currentCharacter with
         | Character.bird => 1
         | Character.snake => 3) := by
  unfold try_shoot
  rw [if_neg (not_lt.mpr hcd), if_neg (Nat.not_le.mpr hcap)]
  show (shoot env g).bullets.length = _
  unfold shoot
  cases hc : g.currentCharacter <;>
    simp [shoot_bird, shoot_snake]

/-- A ready primary-fire attempt strictly grows the bullet list. -/
theorem try_shoot_grows (env : Env) (now : ℚ) (g : GamePanel)
    (hcd : SHOOT_COOLDOWN ≤ now - g.lastShot) (hcap : g.bullets.length < MAX_BULLETS) :
    g.bullets.length < (try_shoot env now g).bullets.length := by
  rw [try_shoot_fires env now g hcd hcap]
  cases g.currentCharacter <;> simp

/-- A ready special attack appends 5 bullets for the bird and 8 for the
snake, whatever the current bullet count is. -/
theorem try_special_fires (env : Env) (now : ℚ) (g : GamePanel)
    (hcd : ¬(now - g.lastSpecial < g.specialCooldown)) :
    (try_special_attack env now g).bullets.length
      = g.bullets.length +
        (match g.currentCharacter with
         | Character.bird => 5
         | Character.snake => 8) := by
  unfold try_special_attack
  rw [if_neg hcd]
  show (special_attack env g).bullets.length = _
  unfold special_attack
  cases hc : g.currentCharacter <;>
    simp [special_bird_attack, special_snake_attack]

/-- A ready special attack strictly grows the bullet list. -/
theorem try_special_grows (env : Env) (now : ℚ) (g : GamePanel)
    (hcd : ¬(now - g.lastSpecial < g.specialCooldown)) :
    g.bullets.length < (try_special_attack env now g).bullets.length := by
  rw [try_special_fires env now g hcd]
  cases g.currentCharacter <;> simp

/-- C7: Sprite.intersects is boundary-inclusive axis-aligned box overlap — it
returns false exactly when the boxes are strictly separated on the horizontal
or the vertical axis, and two boxes of nonnegative width that exactly touch
edge-to-edge (equal edge coordinates, zero gap, no separation on the other
axis) do intersect. -/
theorem C7_intersects_boundary (s o : Sprite) :
    (Sprite.intersects s o = false ↔
      (s.x + (s.w : ℚ) < o.x ∨ o.x + (o.w : ℚ) < s.x ∨
       s.y + (s.h : ℚ) < o.y ∨ o.y + (o.h : ℚ) < s.y))
  ∧ (0 ≤ s.w → 0 ≤ o.w → s.x + (s.w : ℚ) = o.x →
      ¬(s.y + (s.h : ℚ) < o.y) → ¬(o.y + (o.h : ℚ) < s.y) →
      Sprite.intersects s o = true) := by
  have hiff : Sprite.intersects s o = false ↔
      (s.x + (s.w : ℚ) < o.x ∨ o.x + (o.w : ℚ) < s.x ∨
       s.y + (s.h : ℚ) < o.y ∨ o.y + (o.h : ℚ) < s.y) := by
    unfold Sprite.intersects
    split
    case isTrue h =>
      simp only [eq_self_iff_true, true_iff]
      rcases h with h | h | h | h
      · exact Or.inl h
      · exact Or.inr (Or.inl h)
      · exact Or.inr (Or.inr (Or.inl h))
      · exact Or.inr (Or.inr (Or.inr h))
    case isFalse h =>
      push_neg at h
      obtain ⟨h1, h2, h3, h4⟩ := h
      simp only [Bool.true_eq_false, false_iff]
      push_neg
      exact ⟨h1, h2, h3, h4⟩
  refine ⟨hiff, ?_⟩
  intro hw how hx hy1 hy2
  rcases hb : Sprite.intersects s o with _ | _
  · exfalso
    rcases hiff.mp hb with h | h | h | h
    · rw [hx] at h
      exact lt_irrefl _ h
    · have hsw : (0 : ℚ) ≤ (s.w : ℚ) := by exact_mod_cast hw
      have how2 : (0 : ℚ) ≤ (o.w : ℚ) := by exact_mod_cast how
      linarith
    · exact hy1 h
    · exact hy2 h
  · rfl

unseal Rat.add Rat.mul Rat.inv Rat.sub Nat.gcd in
/-- C7 witness: the concrete sprites touchA and touchB, whose boxes touch
edge-to-edge with zero gap, intersect. -/
theorem C7_witness : Sprite.intersects touchA touchB = true :=
  (C7_intersects_boundary touchA touchB).2 (by decide) (by decide) (by decide)
    (by decide) (by decide)

unseal Rat.add Rat.mul Rat.inv Rat.sub Nat.gcd in
/-- C8 counterexample: a file storing "-5" parses fine, so load_high_score
returns the negative value -5 — refuting "always yields a non-negative
integer". -/
theorem C8_counterexample :
    load_high_score (Option.some ("-5")) = -5
  ∧ load_high_score (Option.some ("-5")) < 0 := by
  decide

/-- C8 (amended): loading the high score never raises and returns 0 when the
file is absent or its stripped content does not parse as an integer;
otherwise it returns the parsed integer, which is non-negative whenever the
stored value is non-negative (but negative stored values are passed
through). -/
theorem C8_load_amended :
    load_high_score Option.none = 0
  ∧ (∀ s : String, pyIntParse (pyStrip s) = Option.none →
      load_high_score (Option.some s) = 0)
  ∧ (∀ (s : String) (n : ℤ), pyIntParse (pyStrip s) = Option.some n →
      load_high_score (Option.some s) = n)
  ∧ (∀ (s : String) (n : ℤ), pyIntParse (pyStrip s) = Option.some n → 0 ≤ n →
      0 ≤ load_high_score (Option.some s)) := by
  refine ⟨rfl, ?_, ?_, ?_⟩
  · intro s h
    simp only [load_high_score]
    rw [h]
  · intro s n h
    simp only [load_high_score]
    rw [h]
  · intro s n h hn
    simp only [load_high_score]
    rw [h]
    exact hn

unseal Rat.add Rat.mul Rat.inv Rat.sub Nat.gcd in
/-- C8 witness: a file storing "42" loads as 42. -/
theorem C8_witness :
    pyIntParse (pyStrip ("42")) = Option.some 42
  ∧ load_high_score (Option.some ("42")) = 42 :=
  ⟨by decide, C8_load_amended.2.2.1 ("42") 42 (by decide)⟩

unseal Rat.add Rat.mul Rat.inv Rat.sub Nat.gcd in
/-- C10 counterexample: reset puts the bird at the spawn point x = 60, not at
zero — refuting "zeroes player positions". -/
theorem C10_counterexample :
    (reset stateC10).bird.x = 60 ∧ (reset stateC10).bird.x ≠ 0 := by
  decide

/-- C10 (amended): every restart empties exactly the bullet, enemy and
particle collections, zeroes score, combo, combo timer, player velocities and
camera shake, re-seats both players at the fixed spawn point (60, 320), and
leaves theme, theme stage, both theme boosts, the raindrop pool, the spawn
timer and the difficulty-preset index unchanged — so a restarted session
inherits the previous session's weather state and boosts. -/
theorem C10_reset_amended (g : GamePanel) :
    (reset g).bullets = [] ∧ (reset g).enemies = [] ∧ (reset g).particles = []
  ∧ (reset g).score = 0 ∧ (reset g).combo = 0 ∧ (reset g).comboTimer = 0
  ∧ (reset g).bird.x = 60 ∧ (reset g).bird.y = 320
  ∧ (reset g).bird.vx = 0 ∧ (reset g).bird.vy = 0
  ∧ (reset g).snake.x = 60 ∧ (reset g).snake.y = 320
  ∧ (reset g).snake.vx = 0 ∧ (reset g).snake.vy = 0
  ∧ (reset g).cameraShake = 0 ∧ (reset g).running = true ∧ (reset g).paused = false
  ∧ (reset g).theme = g.theme ∧ (reset g).themeStage = g.themeStage
  ∧ (reset g).themeSpawnBoost = g.themeSpawnBoost
  ∧ (reset g).themeEnemySpeedBoost = g.themeEnemySpeedBoost
  ∧ (reset g).raindrops = g.raindrops ∧ (reset g).spawnTimer = g.spawnTimer
  ∧ (reset g).difficultyIndex = g.difficultyIndex := by
  simp only [reset]
  split <;> simp

unseal Rat.add Rat.mul Rat.inv Rat.sub Nat.gcd in
/-- C2 counterexample: with the snake character and three bullets already in
flight, a primary-fire attempt passes the cap check and appends the whole
3-pellet cone, leaving six projectiles in flight — refuting "at most 4
primary projectiles are simultaneously in flight". -/
theorem C2_counterexample :
    stateC2.bullets.length = 3 ∧ (try_shoot env0 0 stateC2).bullets.length = 6 := by
  decide

/-- C2 (amended): a primary-fire attempt finding at least MAX_BULLETS = 4
entries in the shared bullet list is a silent no-op that changes nothing;
below the cap, a ready attempt appends 1 projectile for the bird and 3 for
the snake — so the cap is a fire gate, not an in-flight invariant, and the
snake cone can raise the count to 6. -/
theorem C2_fire_gate (env : Env) (now : ℚ) (g : GamePanel) :
    (MAX_BULLETS ≤ g.bullets.length → try_shoot env now g = g)
  ∧ (SHOOT_COOLDOWN ≤ now - g.lastShot → g.bullets.length < MAX_BULLETS →
      (try_shoot env now g).bullets.length
        = g.bullets.length +
          (match g.currentCharacter with
           | Character.bird => 1
           | Character.snake => 3)) :=
  ⟨fun hcap => try_shoot_noop env now g hcap,
   fun hcd hcap => try_shoot_fires env now g hcd hcap⟩

unseal Rat.add Rat.mul Rat.inv Rat.sub Nat.gcd in
/-- C2 witness: with four bullets in flight, a primary-fire attempt leaves
the state untouched. -/
theorem C2_witness :
    MAX_BULLETS ≤ stateCap.bullets.length ∧ try_shoot env0 0 stateCap = stateCap :=
  ⟨by decide, (C2_fire_gate env0 0 stateCap).1 (by decide)⟩

unseal Rat.add Rat.mul Rat.inv Rat.sub Nat.gcd in
/-- C3 counterexample: from a bird state with an empty bullet list, a special
attack emits 5 projectiles, none of them primary; a subsequent ready
primary-fire attempt is nonetheless a no-op, because the 5 special
projectiles fill the shared cap — refuting "special projectiles do not count
toward the 4-projectile cap". -/
theorem C3_counterexample :
    (try_special_attack env0 0 initState).bullets.length = 5
  ∧ (try_special_attack env0 0 initState).bullets.countP
      (fun b => decide (b.bulletType = BulletType.normal)) = 0
  ∧ try_shoot env0 1 (try_special_attack env0 0 initState)
      = try_special_attack env0 0 initState := by
  decide

/-- C3 (amended): a special attack is gated only by its own cooldown and
succeeds regardless of how many projectiles are in flight, appending 5
projectiles for the bird and 8 for the snake; but those projectiles land in
the same shared list the primary cap measures, so in-flight special
projectiles do count toward the 4-projectile primary-fire gate. -/
theorem C3_special_and_cap (env : Env) (now : ℚ) (g : GamePanel) :
    (¬(now - g.lastSpecial < g.specialCooldown) →
      (try_special_attack env now g).bullets.length
        = g.bullets.length +
          (match g.currentCharacter with
           | Character.bird => 5
           | Character.snake => 8))
  ∧ (MAX_BULLETS ≤ g.bullets.length → try_shoot env now g = g) :=
  ⟨fun hcd => try_special_fires env now g hcd,
   fun hcap => try_shoot_noop env now g hcap⟩

unseal Rat.add Rat.mul Rat.inv Rat.sub Nat.gcd in
/-- C3 witness: a ready special attack from the initial bird state appends
exactly 5 projectiles. -/
theorem C3_witness :
    ¬((0 : ℚ) - initState.lastSpecial < initState.specialCooldown)
  ∧ (try_special_attack env0 0 initState).bullets.length
      = initState.bullets.length + 5 :=
  ⟨by decide, (C3_special_and_cap env0 0 initState).1 (by decide)⟩


/-- Early return of on_timer: while paused or not running, the frame updates
only the clock bookkeeping. -/
theorem on_timer_skip (env : Env) (now : ℚ) (g : GamePanel)
    (h : g.running = false ∨ g.paused = true) :
    on_timer env now g = { g with lastTime := now, dt := clampDt (now - g.lastTime) } := by
  simp only [on_timer]
  rw [if_pos]
  rcases h with h | h
  · exact Or.inl h
  · exact Or.inr h

/-- Running frame of on_timer: the body runs on the clock-updated state. -/
theorem on_timer_run (env : Env) (now : ℚ) (g : GamePanel)
    (hr : g.running = true) (hp : g.paused = false) :
    on_timer env now g
      = runFrame env { g with lastTime := now, dt := clampDt (now - g.lastTime) } := by
  simp only [on_timer]
  rw [if_neg]
  simp [hr, hp]

/-- playerSprite only depends on the character selector and the two player
sprites. -/
theorem playerSprite_congr {g h : GamePanel}
    (hc : g.currentCharacter = h.currentCharacter)
    (hb : g.bird = h.bird) (hs : g.snake = h.snake) :
    playerSprite g = playerSprite h := by
  unfold playerSprite
  rw [hc, hb, hs]

/-- C5: a frame processed while the session is paused or over (not running)
leaves every entity position, the collections and the score unchanged: the
early return skips physics, spawning and collision resolution entirely. -/
theorem C5_nonrunning_frame (env : Env) (now : ℚ) (g : GamePanel)
    (h : g.running = false ∨ g.paused = true) :
    (on_timer env now g).bird = g.bird
  ∧ (on_timer env now g).snake = g.snake
  ∧ (on_timer env now g).bullets = g.bullets
  ∧ (on_timer env now g).enemies = g.enemies
  ∧ (on_timer env now g).particles = g.particles
  ∧ (on_timer env now g).raindrops = g.raindrops
  ∧ (on_timer env now g).score = g.score := by
  rw [on_timer_skip env now g h]
  exact ⟨rfl, rfl, rfl, rfl, rfl, rfl, rfl⟩

unseal Rat.add Rat.mul Rat.inv Rat.sub Nat.gcd in
/-- C5 witness: a concrete paused frame with entities and score 7 keeps its
score and its enemy list. -/
theorem C5_witness :
    (statePaused.running = false ∨ statePaused.paused = true)
  ∧ (on_timer env0 1 statePaused).score = statePaused.score
  ∧ (on_timer env0 1 statePaused).enemies = statePaused.enemies :=
  ⟨Or.inr (by decide),
   (C5_nonrunning_frame env0 1 statePaused (Or.inr (by decide))).2.2.2.2.2.2,
   (C5_nonrunning_frame env0 1 statePaused (Or.inr (by decide))).2.2.2.1⟩

/-- C9: one-shot key actions are applied without consulting the session
state: even while paused or in game over, the flap key sets the active
player's vertical velocity to the flap impulse, and the primary-fire and
special-attack keys still append projectiles to the shared bullet list,
subject only to their cooldown and capacity gates. -/
theorem C9_keys_ignore_state (env : Env) (now : ℚ) (g : GamePanel)
    (_hstate : g.paused = true ∨ g.running = false) :
    (playerSprite (on_key_down env now Key.space g)).vy = flap_strength
  ∧ (SHOOT_COOLDOWN ≤ now - g.lastShot → g.bullets.length < MAX_BULLETS →
      g.bullets.length < (on_key_down env now Key.keyZ g).bullets.length)
  ∧ (¬(now - g.lastSpecial < g.specialCooldown) →
      g.bullets.length < (on_key_down env now Key.keyX g).bullets.length) := by
  refine ⟨?_, ?_, ?_⟩
  · show (playerSprite (setPlayerSprite
        { g with keys := if Key.space ∈ g.keys then g.keys else Key.space :: g.keys }
        { playerSprite
            { g with keys := if Key.space ∈ g.keys then g.keys else Key.space :: g.keys }
            with vy := flap_strength })).vy = flap_strength
    rw [playerSprite_set]
  · intro h1 h2
    exact try_shoot_grows env now
      { g with keys := if Key.keyZ ∈ g.keys then g.keys else Key.keyZ :: g.keys } h1 h2
  · intro h1
    exact try_special_grows env now
      { g with keys := if Key.keyX ∈ g.keys then g.keys else Key.keyX :: g.keys } h1

unseal Rat.add Rat.mul Rat.inv Rat.sub Nat.gcd in
/-- C9 witness: in a concrete paused state, the flap key still sets the
active player's vertical velocity to -320. -/
theorem C9_witness :
    (statePaused.paused = true ∨ statePaused.running = false)
  ∧ (playerSprite (on_key_down env0 5 Key.space statePaused)).vy = flap_strength :=
  ⟨Or.inl (by decide),
   (C9_keys_ignore_state env0 5 statePaused (Or.inl (by decide))).1⟩


/-- Enemy advancement preserves the object identity. -/
theorem enemyAdvance_sid (env : Env) (dt : ℚ) (e : Sprite) :
    (enemyAdvance env dt e).sid = e.sid := by
  unfold enemyAdvance Sprite.update
  split <;> rfl

/-- Truncation agrees with the floor on nonnegative arguments. -/
theorem pyTrunc_eq_floor (q : ℚ) (h : 0 ≤ q) : pyTrunc q = ⌊q⌋ :=
  if_pos h

/-- The combo decay ticks the timer and keeps everything else except combo. -/
theorem comboDecayPhase_misc (g : GamePanel) :
    (comboDecayPhase g).dt = g.dt ∧ (comboDecayPhase g).bird = g.bird
  ∧ (comboDecayPhase g).snake = g.snake
  ∧ (comboDecayPhase g).currentCharacter = g.currentCharacter
  ∧ (comboDecayPhase g).score = g.score
  ∧ (comboDecayPhase g).comboTimer = g.comboTimer - g.dt := by
  simp only [comboDecayPhase]
  split <;> exact ⟨rfl, rfl, rfl, rfl, rfl, rfl⟩

/-- While the ticked timer stays positive, the combo survives the decay. -/
theorem comboDecayPhase_combo_keep (g : GamePanel) (h : ¬(g.comboTimer - g.dt ≤ 0)) :
    (comboDecayPhase g).combo = g.combo := by
  simp only [comboDecayPhase]
  rw [if_neg h]

/-- Collision block on a state holding exactly one enemy and one bullet that
overlap after the enemy's motion: both are removed, the combo is bumped once,
the combo timer is reset to 3.0, the score gains one increment computed at
the bumped combo, and the fields the loop never touches are preserved. -/
theorem collisionPhase_one_kill (env : Env) (g : GamePanel) (e b : Sprite)
    (hon : ¬((enemyAdvance env g.dt e).x + ((enemyAdvance env g.dt e).w : ℚ) < 0))
    (hpl : Sprite.intersects (enemyAdvance env g.dt e) (playerSprite g) = false)
    (hib : Sprite.intersects (enemyAdvance env g.dt e) b = true) :
    (collisionPhase env { g with enemies := [e], bullets := [b] }).enemies = []
  ∧ (collisionPhase env { g with enemies := [e], bullets := [b] }).bullets = []
  ∧ (collisionPhase env { g with enemies := [e], bullets := [b] }).combo = g.combo + 1
  ∧ (collisionPhase env { g with enemies := [e], bullets := [b] }).comboTimer = 3
  ∧ (collisionPhase env { g with enemies := [e], bullets := [b] }).score
      = g.score + pyTrunc (100 * (1 + (((g.combo + 1 : ℤ) : ℚ) - 1) * (2/10)))
  ∧ (collisionPhase env { g with enemies := [e], bullets := [b] }).bird = g.bird
  ∧ (collisionPhase env { g with enemies := [e], bullets := [b] }).snake = g.snake
  ∧ (collisionPhase env { g with enemies := [e], bullets := [b] }).currentCharacter
      = g.currentCharacter
  ∧ (collisionPhase env { g with enemies := [e], bullets := [b] }).dt = g.dt := by
  have hps : playerSprite { g with enemies := [e], bullets := [b] } = playerSprite g :=
    playerSprite_congr rfl rfl rfl
  simp only [collisionPhase, hps, List.foldl_cons, List.foldl_nil]
  simp only [processEnemy, enemyAdvance_sid, List.map_cons, List.map_nil, if_pos,
    bulletHit, hpl, removeFirst]
  rw [if_neg hon]
  simp only [Bool.false_eq_true, if_false, List.foldl_cons, List.foldl_nil, bulletHit,
    hib, if_true, removeFirst, if_pos]
  simp


unseal Rat.add Rat.mul Rat.inv Rat.sub Nat.gcd in
/-- C1 counterexample: a running frame whose single enemy overlaps two live
projectiles removes the enemy once and consumes both projectiles, but the
combo rises by 2 (not 1) and the score gains two increments, 100 + 120 = 220
(not the single increment the claim asserts). -/
theorem C1_counterexample :
    (on_timer env0 0 stateC1).combo = 2
  ∧ (on_timer env0 0 stateC1).score = 220
  ∧ (on_timer env0 0 stateC1).enemies = []
  ∧ (on_timer env0 0 stateC1).bullets = [] := by
  decide

/-- C1 (amended): when the collision resolution of a running frame finds one
enemy overlapping two live projectiles, the enemy is removed exactly once and
both projectiles are consumed, but the kill is credited once per consumed
projectile: the combo counter rises by two and the score receives two
increments, the second computed at the higher combo multiplier. -/
theorem C1_double_hit (env : Env) (g : GamePanel) (e b1 b2 : Sprite)
    (hon : ¬((enemyAdvance env g.dt e).x + ((enemyAdvance env g.dt e).w : ℚ) < 0))
    (hpl : Sprite.intersects (enemyAdvance env g.dt e) (playerSprite g) = false)
    (hib1 : Sprite.intersects (enemyAdvance env g.dt e) b1 = true)
    (hib2 : Sprite.intersects (enemyAdvance env g.dt e) b2 = true) :
    (collisionPhase env { g with enemies := [e], bullets := [b1, b2] }).enemies = []
  ∧ (collisionPhase env { g with enemies := [e], bullets := [b1, b2] }).bullets = []
  ∧ (collisionPhase env { g with enemies := [e], bullets := [b1, b2] }).combo = g.combo + 2
  ∧ (collisionPhase env { g with enemies := [e], bullets := [b1, b2] }).comboTimer = 3
  ∧ (collisionPhase env { g with enemies := [e], bullets := [b1, b2] }).score
      = g.score + pyTrunc (100 * (1 + (((g.combo + 1 : ℤ) : ℚ) - 1) * (2/10)))
               + pyTrunc (100 * (1 + (((g.combo + 1 + 1 : ℤ) : ℚ) - 1) * (2/10))) := by
  have hps : playerSprite { g with enemies := [e], bullets := [b1, b2] } = playerSprite g :=
    playerSprite_congr rfl rfl rfl
  simp only [collisionPhase, hps, List.foldl_cons, List.foldl_nil]
  simp only [processEnemy, enemyAdvance_sid, List.map_cons, List.map_nil, if_pos,
    bulletHit, hpl, removeFirst]
  rw [if_neg hon]
  simp only [Bool.false_eq_true, if_false, List.foldl_cons, List.foldl_nil, bulletHit,
    hib1, hib2, if_true, removeFirst, if_pos]
  simp
  omega

unseal Rat.add Rat.mul Rat.inv Rat.sub Nat.gcd in
/-- C1 witness: the double-hit lemma instantiated at the concrete state of
the counterexample (enemyA overlapping bulletA and bulletB, dt = 0). -/
theorem C1_witness :
    Sprite.intersects (enemyAdvance env0 stateC1.dt enemyA) bulletA = true
  ∧ (collisionPhase env0
      { stateC1 with enemies := [enemyA], bullets := [bulletA, bulletB] }).combo
        = stateC1.combo + 2 :=
  ⟨by decide,
   (C1_double_hit env0 stateC1 enemyA bulletA bulletB
     (by decide) (by decide) (by decide) (by decide)).2.2.1⟩


/-- Invariants of the kill sequence: the clamped dt, both player sprites and
the character selector never change, and after k in-window kills the combo
counter has risen by exactly k. -/
theorem killSeq_inv (env : Env) (es bs : ℕ → Sprite) (g0 : GamePanel)
    (hdt1 : g0.dt ≤ 1/20)
    (hon : ∀ n, ¬((enemyAdvance env g0.dt (es n)).x + ((enemyAdvance env g0.dt (es n)).w : ℚ) < 0))
    (hpl : ∀ n, Sprite.intersects (enemyAdvance env g0.dt (es n)) (playerSprite g0) = false)
    (hib : ∀ n, Sprite.intersects (enemyAdvance env g0.dt (es n)) (bs n) = true) :
    ∀ k, (killSeq env es bs g0 k).dt = g0.dt
       ∧ (killSeq env es bs g0 k).bird = g0.bird
       ∧ (killSeq env es bs g0 k).snake = g0.snake
       ∧ (killSeq env es bs g0 k).currentCharacter = g0.currentCharacter
       ∧ (killSeq env es bs g0 k).combo = g0.combo + k := by
  intro k
  induction k with
  | zero => exact ⟨rfl, rfl, rfl, rfl, by simp [killSeq]⟩
  | succ n ih =>
    obtain ⟨ihdt, ihb, ihs, ihc, ihcombo⟩ := ih
    have hone := collisionPhase_one_kill env (killSeq env es bs g0 n) (es n) (bs n)
      (by rw [ihdt]; exact hon n)
      (by rw [ihdt, playerSprite_congr ihc ihb ihs]; exact hpl n)
      (by rw [ihdt]; exact hib n)
    obtain ⟨-, -, kc, kt, -, kbird, ksnake, kchar, kdt⟩ := hone
    obtain ⟨mdt, mb, ms, mc, -, -⟩ := comboDecayPhase_misc
      (collisionPhase env { killSeq env es bs g0 n with enemies := [es n], bullets := [bs n] })
    have hct : ¬((collisionPhase env { killSeq env es bs g0 n with
          enemies := [es n], bullets := [bs n] }).comboTimer
        - (collisionPhase env { killSeq env es bs g0 n with
          enemies := [es n], bullets := [bs n] }).dt ≤ 0) := by
      rw [kt, kdt, ihdt]
      linarith
    refine ⟨?_, ?_, ?_, ?_, ?_⟩
    · simp only [killSeq, killFrame]
      rw [mdt, kdt, ihdt]
    · simp only [killSeq, killFrame]
      rw [mb, kbird, ihb]
    · simp only [killSeq, killFrame]
      rw [ms, ksnake, ihs]
    · simp only [killSeq, killFrame]
      rw [mc, kchar, ihc]
    · simp only [killSeq, killFrame]
      rw [comboDecayPhase_combo_keep _ hct, kc, ihcombo]
      push_cast
      ring

/-- C4: in a run of N consecutive kills starting from combo 0 (one kill per
frame, each landing inside the freshly reset 3.0-second combo window since
the clamped dt is at most 0.05), the collision block of the N-th kill resets
the combo-expiry timer to 3.0, and the score increment awarded for the N-th
kill equals floor(100 * (1 + (N - 1) * 0.2)). -/
theorem C4_combo_scoring (env : Env) (es bs : ℕ → Sprite) (g0 : GamePanel)
    (hc0 : g0.combo = 0) (hdt1 : g0.dt ≤ 1/20)
    (hon : ∀ n, ¬((enemyAdvance env g0.dt (es n)).x + ((enemyAdvance env g0.dt (es n)).w : ℚ) < 0))
    (hpl : ∀ n, Sprite.intersects (enemyAdvance env g0.dt (es n)) (playerSprite g0) = false)
    (hib : ∀ n, Sprite.intersects (enemyAdvance env g0.dt (es n)) (bs n) = true)
    (N : ℕ) (hN : 1 ≤ N) :
    (killSeq env es bs g0 N).score
      = (killSeq env es bs g0 (N - 1)).score
        + ⌊(100 : ℚ) * (1 + ((N : ℚ) - 1) * (2/10))⌋
  ∧ (collisionPhase env
      { killSeq env es bs g0 (N - 1) with
        enemies := [es (N - 1)], bullets := [bs (N - 1)] }).comboTimer = 3 := by
  obtain ⟨m, rfl⟩ : ∃ m, N = m + 1 := ⟨N - 1, by omega⟩
  have hm : m + 1 - 1 = m := by omega
  rw [hm]
  obtain ⟨ihdt, ihb, ihs, ihc, ihcombo⟩ := killSeq_inv env es bs g0 hdt1 hon hpl hib m
  have hone := collisionPhase_one_kill env (killSeq env es bs g0 m) (es m) (bs m)
    (by rw [ihdt]; exact hon m)
    (by rw [ihdt, playerSprite_congr ihc ihb ihs]; exact hpl m)
    (by rw [ihdt]; exact hib m)
  obtain ⟨-, -, -, kt, ksc, -, -, -, -⟩ := hone
  constructor
  · simp only [killSeq, killFrame]
    obtain ⟨-, -, -, -, msc, -⟩ := comboDecayPhase_misc
      (collisionPhase env { killSeq env es bs g0 m with enemies := [es m], bullets := [bs m] })
    rw [msc, ksc, ihcombo, hc0]
    have harg : (0 : ℚ) ≤ 100 * (1 + ((((0 : ℤ) + (m : ℕ) + 1 : ℤ) : ℚ) - 1) * (2/10)) := by
      push_cast
      have hm0 : (0 : ℚ) ≤ (m : ℚ) := Nat.cast_nonneg m
      nlinarith
    rw [pyTrunc_eq_floor _ harg]
    have hargs : (100 : ℚ) * (1 + ((((0 : ℤ) + (m : ℕ) + 1 : ℤ) : ℚ) - 1) * (2/10))
        = (100 : ℚ) * (1 + (((m + 1 : ℕ) : ℚ) - 1) * (2/10)) := by
      push_cast
      ring
    rw [hargs]
  · exact kt

unseal Rat.add Rat.mul Rat.inv Rat.sub Nat.gcd in
/-- C4 witness: one kill from the initial state (combo 0, dt 0) awards
exactly floor(100 * (1 + 0 * 0.2)) = 100 points. -/
theorem C4_witness :
    initState.combo = 0
  ∧ initState.dt ≤ 1/20
  ∧ (∀ n : ℕ, Sprite.intersects (enemyAdvance env0 initState.dt ((fun _ => enemyA) n))
        ((fun _ => bulletA) n) = true)
  ∧ (killSeq env0 (fun _ => enemyA) (fun _ => bulletA) initState 1).score
      = (killSeq env0 (fun _ => enemyA) (fun _ => bulletA) initState 0).score
        + ⌊(100 : ℚ) * ((((1 : ℕ) : ℚ)) - 1 + 5) / 5⌋ :=
  ⟨by decide, by decide,
   fun _ => (by decide :
     Sprite.intersects (enemyAdvance env0 initState.dt enemyA) bulletA = true),
   (C4_combo_scoring env0 (fun _ => enemyA) (fun _ => bulletA) initState
      (by decide) (by decide)
      (fun _ => (by decide :
        ¬((enemyAdvance env0 initState.dt enemyA).x
            + ((enemyAdvance env0 initState.dt enemyA).w : ℚ) < 0)))
      (fun _ => (by decide :
        Sprite.intersects (enemyAdvance env0 initState.dt enemyA)
          (playerSprite initState) = false))
      (fun _ => (by decide :
        Sprite.intersects (enemyAdvance env0 initState.dt enemyA) bulletA = true))
      1 (by decide)).1.trans (by norm_num)⟩


/-- C6: the first running frame that checks the theme with the stage counter
at 0 and score at or past the 500 threshold installs the Rainy theme, sets
theme_spawn_boost to 1.25 and theme_enemy_speed_boost to 1.15, materializes
the raindrop pool (exactly 120 fresh drops) and advances the stage to 1; on
any frame with the stage counter past 0 the raindrop pool is never extended
again (it is only recycled in place, or cleared by the later sunny
transition), the theme never transitions back to rainy, and the stage
counter never decreases — so the transition fires exactly once. -/
theorem C6_rainy_once (env : Env) :
    (∀ (now : ℚ) (g : GamePanel),
       g.running = true → g.paused = false → g.themeStage = 0 → 500 ≤ g.score →
         (on_timer env now g).theme = Theme.rainy
       ∧ (on_timer env now g).themeSpawnBoost = 5/4
       ∧ (on_timer env now g).themeEnemySpeedBoost = 115/100
       ∧ (on_timer env now g).raindrops.length = g.raindrops.length + 120
       ∧ (on_timer env now g).themeStage = 1)
  ∧ (∀ (now : ℚ) (g : GamePanel), 1 ≤ g.themeStage →
         (on_timer env now g).raindrops.length ≤ g.raindrops.length
       ∧ ((on_timer env now g).theme = g.theme ∨ (on_timer env now g).theme = Theme.sunny))
  ∧ (∀ (now : ℚ) (g : GamePanel), g.themeStage ≤ (on_timer env now g).themeStage) := by
  refine ⟨?_, ?_, ?_⟩
  · intro now g hr hp h0 hs
    rw [on_timer_run env now g hr hp]
    simp only [runFrame]
    set g1 := { g with lastTime := now, dt := clampDt (now - g.lastTime) } with hg1
    have hg1st : g1.themeStage = 0 := h0
    have hg1sc : (500 : ℤ) ≤ g1.score := hs
    obtain ⟨a1, a2, a3, a4, a5, a6⟩ := physicsPhase_frame g1
    obtain ⟨b1, b2, b3, b4, b5, b6⟩ := bulletPhase_frame (physicsPhase g1)
    obtain ⟨c1, c2, c3, c4, c5, c6⟩ := spawnPhase_frame env (bulletPhase (physicsPhase g1))
    obtain ⟨d1, d2, d3, d4, d5, d6⟩ :=
      difficultyPhase_frame (spawnPhase env (bulletPhase (physicsPhase g1)))
    have hDst : (difficultyPhase (spawnPhase env (bulletPhase (physicsPhase g1)))).themeStage
        = 0 := by
      rw [d2, c2, b2, a2, hg1st]
    have hDsc : (500 : ℤ)
        ≤ (difficultyPhase (spawnPhase env (bulletPhase (physicsPhase g1)))).score := by
      rw [d6, c6, b6, a6]
      exact hg1sc
    have hDrd : (difficultyPhase (spawnPhase env (bulletPhase (physicsPhase g1)))).raindrops
        = g.raindrops := by
      rw [d5, c5, b5, a5]
    obtain ⟨t1, t2, t3, t4, t5, t6⟩ := themePhase_trigger env _ hDst hDsc
    have hci := collisionPhase_collInv env
      (themePhase env (difficultyPhase (spawnPhase env (bulletPhase (physicsPhase g1)))))
    simp only [collInv, Prod.mk.injEq] at hci
    obtain ⟨e1, e2, e3, e4, e5, -, -, -, -⟩ := hci
    obtain ⟨f1, f2, f3, f4, f5, f6⟩ := comboDecayPhase_frame (collisionPhase env
      (themePhase env (difficultyPhase (spawnPhase env (bulletPhase (physicsPhase g1))))))
    obtain ⟨i1, i2, i3, i4, i5, i6⟩ := particlePhase_frame (comboDecayPhase (collisionPhase env
      (themePhase env (difficultyPhase (spawnPhase env (bulletPhase (physicsPhase g1)))))))
    obtain ⟨j1, j2, j3, j4, j5, j6⟩ := shakePhase_frame (particlePhase (comboDecayPhase
      (collisionPhase env (themePhase env (difficultyPhase (spawnPhase env (bulletPhase
      (physicsPhase g1))))))))
    obtain ⟨k1, k2, k3, k4, k5, k6⟩ := rainPhase_frame env (shakePhase (particlePhase
      (comboDecayPhase (collisionPhase env (themePhase env (difficultyPhase (spawnPhase env
      (bulletPhase (physicsPhase g1)))))))))
    refine ⟨?_, ?_, ?_, ?_, ?_⟩
    · rw [k1, j1, i1, f1, e1, t1]
    · rw [k3, j3, i3, f3, e3, t2]
    · rw [k4, j4, i4, f4, e4, t3]
    · rw [k5, j5, i5, f5, e5, t4, hDrd]
      simp
    · rw [k2, j2, i2, f2, e2, t5]
  · intro now g h1
    by_cases hr : g.running = true
    · by_cases hp : g.paused = false
      · rw [on_timer_run env now g hr hp]
        simp only [runFrame]
        set g1 := { g with lastTime := now, dt := clampDt (now - g.lastTime) } with hg1
        obtain ⟨a1, a2, a3, a4, a5, a6⟩ := physicsPhase_frame g1
        obtain ⟨b1, b2, b3, b4, b5, b6⟩ := bulletPhase_frame (physicsPhase g1)
        obtain ⟨c1, c2, c3, c4, c5, c6⟩ := spawnPhase_frame env (bulletPhase (physicsPhase g1))
        obtain ⟨d1, d2, d3, d4, d5, d6⟩ :=
          difficultyPhase_frame (spawnPhase env (bulletPhase (physicsPhase g1)))
        have hDst : 1 ≤ (difficultyPhase (spawnPhase env (bulletPhase
            (physicsPhase g1)))).themeStage := by
          rw [d2, c2, b2, a2]
          exact h1
        obtain ⟨hrd, hth⟩ := themePhase_late env _ hDst
        have hci := collisionPhase_collInv env
          (themePhase env (difficultyPhase (spawnPhase env (bulletPhase (physicsPhase g1)))))
        simp only [collInv, Prod.mk.injEq] at hci
        obtain ⟨e1, e2, e3, e4, e5, -, -, -, -⟩ := hci
        obtain ⟨f1, f2, f3, f4, f5, f6⟩ := comboDecayPhase_frame (collisionPhase env
          (themePhase env (difficultyPhase (spawnPhase env (bulletPhase (physicsPhase g1))))))
        obtain ⟨i1, i2, i3, i4, i5, i6⟩ := particlePhase_frame (comboDecayPhase
          (collisionPhase env (themePhase env (difficultyPhase (spawnPhase env (bulletPhase
          (physicsPhase g1)))))))
        obtain ⟨j1, j2, j3, j4, j5, j6⟩ := shakePhase_frame (particlePhase (comboDecayPhase
          (collisionPhase env (themePhase env (difficultyPhase (spawnPhase env (bulletPhase
          (physicsPhase g1))))))))
        obtain ⟨k1, k2, k3, k4, k5, k6⟩ := rainPhase_frame env (shakePhase (particlePhase
          (comboDecayPhase (collisionPhase env (themePhase env (difficultyPhase (spawnPhase env
          (bulletPhase (physicsPhase g1)))))))))
        constructor
        · rw [k5, j5, i5, f5, e5]
          rcases hrd with h | h
          · rw [h, d5, c5, b5, a5]
          · rw [h]
            simp
        · rcases hth with h | h
          · left
            rw [k1, j1, i1, f1, e1, h, d1, c1, b1, a1]
          · right
            rw [k1, j1, i1, f1, e1, h]
      · have hpt : g.paused = true := by
          revert hp
          cases g.paused <;> simp
        rw [on_timer_skip env now g (Or.inr hpt)]
        exact ⟨Nat.le_refl _, Or.inl rfl⟩
    · have hrf : g.running = false := by
        revert hr
        cases g.running <;> simp
      rw [on_timer_skip env now g (Or.inl hrf)]
      exact ⟨Nat.le_refl _, Or.inl rfl⟩
  · intro now g
    by_cases hr : g.running = true
    · by_cases hp : g.paused = false
      · rw [on_timer_run env now g hr hp]
        simp only [runFrame]
        set g1 := { g with lastTime := now, dt := clampDt (now - g.lastTime) } with hg1
        obtain ⟨a1, a2, a3, a4, a5, a6⟩ := physicsPhase_frame g1
        obtain ⟨b1, b2, b3, b4, b5, b6⟩ := bulletPhase_frame (physicsPhase g1)
        obtain ⟨c1, c2, c3, c4, c5, c6⟩ := spawnPhase_frame env (bulletPhase (physicsPhase g1))
        obtain ⟨d1, d2, d3, d4, d5, d6⟩ :=
          difficultyPhase_frame (spawnPhase env (bulletPhase (physicsPhase g1)))
        have hmono := themePhase_stage_mono env
          (difficultyPhase (spawnPhase env (bulletPhase (physicsPhase g1))))
        have hci := collisionPhase_collInv env
          (themePhase env (difficultyPhase (spawnPhase env (bulletPhase (physicsPhase g1)))))
        simp only [collInv, Prod.mk.injEq] at hci
        obtain ⟨e1, e2, e3, e4, e5, -, -, -, -⟩ := hci
        obtain ⟨f1, f2, f3, f4, f5, f6⟩ := comboDecayPhase_frame (collisionPhase env
          (themePhase env (difficultyPhase (spawnPhase env (bulletPhase (physicsPhase g1))))))
        obtain ⟨i1, i2, i3, i4, i5, i6⟩ := particlePhase_frame (comboDecayPhase
          (collisionPhase env (themePhase env (difficultyPhase (spawnPhase env (bulletPhase
          (physicsPhase g1)))))))
        obtain ⟨j1, j2, j3, j4, j5, j6⟩ := shakePhase_frame (particlePhase (comboDecayPhase
          (collisionPhase env (themePhase env (difficultyPhase (spawnPhase env (bulletPhase
          (physicsPhase g1))))))))
        obtain ⟨k1, k2, k3, k4, k5, k6⟩ := rainPhase_frame env (shakePhase (particlePhase
          (comboDecayPhase (collisionPhase env (themePhase env (difficultyPhase (spawnPhase env
          (bulletPhase (physicsPhase g1)))))))))
        rw [k2, j2, i2, f2, e2]
        refine le_trans ?_ hmono
        rw [d2, c2, b2, a2]
      · have hpt : g.paused = true := by
          revert hp
          cases g.paused <;> simp
        rw [on_timer_skip env now g (Or.inr hpt)]
    · have hrf : g.running = false := by
        revert hr
        cases g.running <;> simp
      rw [on_timer_skip env now g (Or.inl hrf)]

unseal Rat.add Rat.mul Rat.inv Rat.sub Nat.gcd in
/-- C6 witness: a concrete running frame at score 600 with stage 0 switches
to rainy and gains exactly 120 raindrops. -/
theorem C6_witness :
    stateC6.running = true ∧ stateC6.paused = false ∧ stateC6.themeStage = 0
  ∧ (500 : ℤ) ≤ stateC6.score
  ∧ (on_timer env0 (1/100) stateC6).theme = Theme.rainy
  ∧ (on_timer env0 (1/100) stateC6).raindrops.length = stateC6.raindrops.length + 120 :=
  ⟨rfl, rfl, rfl, by decide,
   ((C6_rainy_once env0).1 (1/100) stateC6 rfl rfl rfl (by decide)).1,
   ((C6_rainy_once env0).1 (1/100) stateC6 rfl rfl rfl (by decide)).2.2.2.1⟩

end FJS
